import Mathlib

/-!
Shallow embedding of the gnarkd proving-service core
(`gnarkd/server/server.go`, package `server`), covering the job lifecycle
state machine, the TTL expiry check and GC sweep, the single worker loop,
the witness TCP ingestion, and the circuit-catalog loader.

Bytes are modelled as lists of naturals, wall-clock instants as naturals,
and the external prover / serializer collaborators as explicit outcome
parameters.  Goroutine channel interaction is modelled by recording, for
each channel send, whether the sender had to wait.
-/

namespace GnarkdServer

/-- Job lifecycle status (`pb.ProveJobResult_Status` in `gnarkd/pb`). -/
inductive Status
  | WAITING_WITNESS
  | QUEUED
  | RUNNING
  | COMPLETED
  | ERRORED
deriving DecidableEq, Repr

/-- `COMPLETED` and `ERRORED` are the terminal statuses. -/
def Status.isTerminal : Status → Bool
  | .COMPLETED => true
  | .ERRORED => true
  | _ => false

/-- Error values a job can carry: `errJobExpired`, `errJobCancelled`, and
wrapped prover or proof-serialization errors. -/
inductive JobError
  | jobExpired
  | jobCancelled
  | proverFailed (msg : String)
  | serializeFailed (msg : String)
deriving DecidableEq, Repr

/-- A subscriber sink is a one-slot signalling channel of unit values;
`true` means the slot holds an undrained signal. -/
abbrev Sink := Bool

/-- The job record (`proveJob`).  The `id` is the job UUID read as a number. -/
structure ProveJob where
  id : Nat
  circuitID : String
  status : Status
  expiration : Nat
  witness : List Nat := []
  proof : List Nat := []
  err : Option JobError := none
  subscribers : List Sink := []
deriving DecidableEq, Repr

/-- A plain channel send to a one-slot sink: afterwards the sink holds a
signal, and the sender had to wait exactly when the sink was already full
(the signal is delivered once the subscriber drains the slot, never dropped). -/
def sendBlocking (s : Sink) : Sink × Bool := (true, s)

/-- The subscriber fan-out loop of `Server.isExpired`: a plain send to every
subscriber sink, recording whether any send had to wait. -/
def notifyAll : List Sink → List Sink × Bool
  | [] => ([], false)
  | s :: rest =>
    let hd := sendBlocking s
    let tl := notifyAll rest
    (hd.1 :: tl.1, hd.2 || tl.2)

/-- Result of one `Server.isExpired` call: the job's new state, the returned
boolean, and whether the fan-out had to wait on a subscriber. -/
structure ExpiryResult where
  job : ProveJob
  expired : Bool
  waited : Bool
deriving DecidableEq, Repr

/-- `Server.isExpired`: under the job lock, if the expiration instant is in
the past, set `status = ERRORED` and `err = errJobExpired`, send a signal to
every subscriber, and return true; otherwise leave the job alone and return
false.  Nothing here inspects the current status. -/
def isExpired (now : Nat) (job : ProveJob) : ExpiryResult :=
  if job.expiration < now then
    let n := notifyAll job.subscribers
    { job := { job with status := .ERRORED, err := some .jobExpired, subscribers := n.1 },
      expired := true,
      waited := n.2 }
  else
    { job := job, expired := false, waited := false }

/-- One GC tick of `Server.startGC`, traced per job: `s.jobs.Range` calls
`isExpired` on every job in the registry. -/
def gcTrace (now : Nat) (jobs : List ProveJob) : List ExpiryResult :=
  jobs.map (isExpired now)

/-- One GC tick of `Server.startGC`: every job for which `isExpired` returned
true is deleted from the registry; the others are kept. -/
def gcSweep (now : Nat) (jobs : List ProveJob) : List ProveJob :=
  (gcTrace now jobs).filterMap (fun r => if r.expired then none else some r.job)

/-- Legal edges of the job state machine (spec section 4.2). -/
def validTransition : Status → Status → Bool
  | .WAITING_WITNESS, .QUEUED => true
  | .WAITING_WITNESS, .ERRORED => true
  | .QUEUED, .RUNNING => true
  | .QUEUED, .ERRORED => true
  | .RUNNING, .COMPLETED => true
  | .RUNNING, .ERRORED => true
  | _, _ => false

/-- Modelled from the spec: `proveJob.setStatus` lives in
`gnarkd/server/jobs.go`, which is not among the provided source files.  Per
the spec (section 4.2) it validates the requested transition against the
state machine, mutates the job under its lock, and attempts a non-blocking
send to every subscriber sink (a full one-slot sink keeps its pending
signal, so every sink holds a signal afterwards); an illegal transition
returns an error without mutating the job. -/
def setStatus (job : ProveJob) (st : Status) : Except String ProveJob :=
  if validTransition job.status st then
    .ok { job with status := st, subscribers := job.subscribers.map (fun _ => true) }
  else
    .error "illegal status transition"

/-- Either a value or a fatal log that aborts the whole process. -/
inductive DieOr (α : Type)
  | ok (a : α)
  | fatal (msg : String)
deriving DecidableEq, Repr

/-- `Server.updateJobStatusOrDie`: any error from `setStatus` is logged with
`log.Fatalw`, which terminates the process. -/
def updateJobStatusOrDie (job : ProveJob) (st : Status) : DieOr ProveJob :=
  match setStatus job st with
  | .ok j => .ok j
  | .error e => .fatal e

/-- The server-side `circuit` record: which of the three gnark objects were
loaded, and the derived witness byte sizes. -/
structure circuit where
  pk : Bool := false
  vk : Bool := false
  r1cs : Bool := false
  publicWitnessSize : Nat := 0
  fullWitnessSize : Nat := 0
deriving DecidableEq, Repr

/-- Lookup in the `Server.circuits` map. -/
def lookupCircuit (circuits : List (String × circuit)) (cid : String) : Option circuit :=
  (circuits.find? (fun p => p.1 == cid)).map (fun p => p.2)

/-- `s.jobs.Load`: lookup of a job by id in the registry. -/
def findJob (registry : List ProveJob) (jid : Nat) : Option ProveJob :=
  registry.find? (fun j => j.id == jid)

/-- Write back the (pointer-mutated) job into the registry. -/
def updateJob (registry : List ProveJob) (j : ProveJob) : List ProveJob :=
  registry.map (fun x => if x.id == j.id then j else x)

/-- Outcome of the external `groth16.ReadAndProve` collaborator. -/
inductive ProverOutcome
  | failure (msg : String)
  | success (proofObject : List Nat)
deriving DecidableEq, Repr

/-- Outcome of the external `proof.WriteTo` proof serialization. -/
inductive SerializeOutcome
  | failure (msg : String)
  | success (bytes : List Nat)
deriving DecidableEq, Repr

/-- How one worker loop iteration ends. -/
inductive WorkerOutcome
  | skippedMissingJob
  | skippedExpired
  | fatal (msg : String)
  | finishedJob
deriving DecidableEq, Repr

/-- Observable result of one worker loop iteration: the registry afterwards,
the job state exactly when the prover is invoked (if it is), the job's final
state, and how the iteration ended. -/
structure WorkerRun where
  registry : List ProveJob
  atProverCall : Option ProveJob
  finalJob : Option ProveJob
  outcome : WorkerOutcome
deriving DecidableEq, Repr

/-- One iteration of `Server.startWorker` after dequeuing `jid`:
load the job (log and continue when absent), skip it when expired,
transition to `RUNNING`, look up the circuit (fatal when absent), invoke
`groth16.ReadAndProve` on the stored witness, set `job.witness` to nil once
the call returns, then either record the error and go to `ERRORED`, or
serialize the proof (error again gives `ERRORED`), store the proof bytes and
go to `COMPLETED`. -/
def workerStep (circuits : List (String × circuit)) (now : Nat) (registry : List ProveJob)
    (jid : Nat) (proveResult : ProverOutcome) (serializeResult : SerializeOutcome) :
    WorkerRun :=
  match findJob registry jid with
  | none =>
    { registry := registry, atProverCall := none, finalJob := none,
      outcome := .skippedMissingJob }
  | some job =>
    let e := isExpired now job
    if e.expired then
      { registry := updateJob registry e.job, atProverCall := none,
        finalJob := some e.job, outcome := .skippedExpired }
    else
      match updateJobStatusOrDie e.job .RUNNING with
      | .fatal m =>
        { registry := updateJob registry e.job, atProverCall := none,
          finalJob := some e.job, outcome := .fatal m }
      | .ok job1 =>
        match lookupCircuit circuits job1.circuitID with
        | none =>
          { registry := updateJob registry job1, atProverCall := none,
            finalJob := some job1, outcome := .fatal "missing circuit" }
        | some _c =>
          let job2 := { job1 with witness := [] }
          match proveResult with
          | .failure msg =>
            let job3 := { job2 with err := some (.proverFailed msg) }
            match updateJobStatusOrDie job3 .ERRORED with
            | .fatal m =>
              { registry := updateJob registry job3, atProverCall := some job1,
                finalJob := some job3, outcome := .fatal m }
            | .ok j =>
              { registry := updateJob registry j, atProverCall := some job1,
                finalJob := some j, outcome := .finishedJob }
          | .success _proofObject =>
            match serializeResult with
            | .failure msg =>
              let job3 := { job2 with err := some (.serializeFailed msg) }
              match updateJobStatusOrDie job3 .ERRORED with
              | .fatal m =>
                { registry := updateJob registry job3, atProverCall := some job1,
                  finalJob := some job3, outcome := .fatal m }
              | .ok j =>
                { registry := updateJob registry j, atProverCall := some job1,
                  finalJob := some j, outcome := .finishedJob }
            | .success proofBytes =>
              let job3 := { job2 with proof := proofBytes }
              match updateJobStatusOrDie job3 .COMPLETED with
              | .fatal m =>
                { registry := updateJob registry job3, atProverCall := some job1,
                  finalJob := some job3, outcome := .fatal m }
              | .ok j =>
                { registry := updateJob registry j, atProverCall := some job1,
                  finalJob := some j, outcome := .finishedJob }

/-- Modelled from the spec: the `jobIDSize` constant lives in
`gnarkd/server/jobs.go`, which is not among the provided source files; the
spec fixes the preamble at 16 bytes (a binary UUID). -/
def jobIDSize : Nat := 16

/-- `io.ReadFull`: read exactly `n` bytes from the stream, failing on a
short read, and return the bytes together with the rest of the stream. -/
def readFull (n : Nat) (input : List Nat) : Option (List Nat × List Nat) :=
  if n ≤ input.length then some (input.take n, input.drop n) else none

/-- `uuid.UnmarshalBinary` on a 16-byte slice never fails; the UUID is read
as a big-endian number. -/
def decodeJobID (bytes : List Nat) : Nat :=
  bytes.foldl (fun acc b => acc * 256 + b % 256) 0

/-- Observable steps of one `Server.receiveWitness` exchange. -/
inductive Event
  | readJobID (bytes : List Nat)
  | lock
  | storeWitness (w : List Nat)
  | unlock
  | setStatusQueued
  | enqueue (jid : Nat)
  | reply (msg : String)
deriving DecidableEq, Repr

/-- Whether the exchange ended with a reply on the socket or a fatal log. -/
inductive IngestOutcome
  | replied (msg : String)
  | fatal (msg : String)
deriving DecidableEq, Repr

/-- Result of one `Server.receiveWitness` exchange: registry afterwards,
ordered event trace, the touched job's final state, and the outcome. -/
structure IngestRun where
  registry : List ProveJob
  events : List Event
  finalJob : Option ProveJob
  outcome : IngestOutcome
deriving DecidableEq, Repr

/-- `Server.receiveWitness` on one connection whose incoming byte stream is
`input`: read the 16-byte job id (short read fails with "nok"), look the job
up ("nok" when unknown), lock it and require `WAITING_WITNESS` ("nok"
otherwise), look up its circuit (fatal when absent), read exactly
`fullWitnessSize` bytes while still holding the lock (short read unlocks and
fails with "nok", leaving the job untouched), store the buffer in
`job.witness`, unlock, `setStatus(QUEUED)` via `updateJobStatusOrDie`,
publish the job id on the ready-queue, and reply "ok". -/
def receiveWitness (circuits : List (String × circuit)) (registry : List ProveJob)
    (input : List Nat) : IngestRun :=
  match readFull jobIDSize input with
  | none =>
    { registry := registry, events := [.reply "nok"], finalJob := none,
      outcome := .replied "nok" }
  | some (idBytes, rest) =>
    let jid := decodeJobID idBytes
    match findJob registry jid with
    | none =>
      { registry := registry, events := [.readJobID idBytes, .reply "nok"],
        finalJob := none, outcome := .replied "nok" }
    | some job =>
      if job.status = Status.WAITING_WITNESS then
        match lookupCircuit circuits job.circuitID with
        | none =>
          { registry := registry, events := [.readJobID idBytes, .lock],
            finalJob := some job, outcome := .fatal "missing circuit" }
        | some c =>
          match readFull c.fullWitnessSize rest with
          | none =>
            { registry := registry,
              events := [.readJobID idBytes, .lock, .unlock, .reply "nok"],
              finalJob := some job, outcome := .replied "nok" }
          | some (wBuf, _) =>
            let job1 := { job with witness := wBuf }
            match updateJobStatusOrDie job1 .QUEUED with
            | .fatal m =>
              { registry := updateJob registry job1,
                events := [.readJobID idBytes, .lock, .storeWitness wBuf, .unlock],
                finalJob := some job1, outcome := .fatal m }
            | .ok job2 =>
              { registry := updateJob registry job2,
                events := [.readJobID idBytes, .lock, .storeWitness wBuf, .unlock,
                           .setStatusQueued, .enqueue jid, .reply "ok"],
                finalJob := some job2, outcome := .replied "ok" }
      else
        { registry := registry,
          events := [.readJobID idBytes, .lock, .unlock, .reply "nok"],
          finalJob := some job, outcome := .replied "nok" }

/-- What `l.Accept()` produced on one iteration of the accept loop. -/
inductive AcceptResult
  | conn (input : List Nat)
  | acceptFailed (msg : String)
deriving DecidableEq, Repr

/-- How one iteration of the accept loop reacts. -/
inductive ListenerOutcome
  | fatal (msg : String)
  | handleConnection (input : List Nat)
deriving DecidableEq, Repr

/-- One iteration of `Server.StartWitnessListener`: an `Accept` error of any
kind is logged with `log.Fatalw` (process abort); otherwise the connection
is handed to a `receiveWitness` goroutine. -/
def listenerStep : AcceptResult → ListenerOutcome
  | .acceptFailed m => .fatal m
  | .conn i => .handleConnection i

/-- The `filepath.Ext` of a directory entry, as the loader's switch sees it:
one of the three suffix constants `pkExt` (".pk"), `vkExt` (".vk"),
`r1csExt` (".r1cs") — themselves defined outside the provided source files,
with these values fixed by the spec's on-disk layout — or anything else. -/
inductive FileExt
  | pk
  | vk
  | r1cs
  | other
deriving DecidableEq, Repr

/-- A directory entry inside a circuit directory: its name, whether it is a
subdirectory, its `filepath.Ext` extension, and whether `loadGnarkObject`
succeeds on it (opening and deserializing the file). -/
structure FSFile where
  name : String
  isDir : Bool := false
  ext : FileExt := .other
  loadOk : Bool := true
deriving DecidableEq, Repr

/-- A circuit directory `<root>/<curve>/<name>`: whether `ioutil.ReadDir`
succeeds on it (a listing failure makes `loadCircuit` return that error),
its entries, plus the variable counts and field-element size carried by the
`.r1cs` object it contains (read back by `GetNbVariables` / `FrSize` after
loading). -/
structure CircuitDirFS where
  name : String
  readable : Bool := true
  files : List FSFile
  nbPublicVariables : Nat := 1
  nbSecretVariables : Nat := 0
  frSize : Nat := 32
deriving DecidableEq, Repr

/-- A curve directory `<root>/<curve>`: whether `ioutil.ReadDir` succeeds on
it, and its circuit subdirectories (non-directory entries are skipped by the
walk, so only subdirectories are modelled). -/
structure CurveDirFS where
  readable : Bool := false
  circuits : List CircuitDirFS := []
deriving DecidableEq, Repr

/-- The configured circuit root directory with its four supported curve
subdirectories (`bn254`, `bls12_381`, `bls12_377`, `bw6_761`). -/
structure RootFS where
  present : Bool
  bn254 : CurveDirFS := {}
  bls12_381 : CurveDirFS := {}
  bls12_377 : CurveDirFS := {}
  bw6_761 : CurveDirFS := {}
deriving DecidableEq, Repr

/-- The file loop of `Server.loadCircuit`: walk the directory entries,
skipping subdirectories and foreign extensions; for each `.pk` / `.vk` /
`.r1cs` file, fail when that slot is already filled (duplicate), fail when
`loadGnarkObject` fails, and otherwise fill the slot. -/
def loadFiles : List FSFile → Bool → Bool → Bool → Except String (Bool × Bool × Bool)
  | [], p, v, r => .ok (p, v, r)
  | f :: fs, p, v, r =>
    if f.isDir then loadFiles fs p v r
    else
      match f.ext with
      | .pk =>
        if p then .error "contains multiple pk files"
        else if f.loadOk then loadFiles fs true v r
        else .error "loading pk failed"
      | .vk =>
        if v then .error "contains multiple vk files"
        else if f.loadOk then loadFiles fs p true r
        else .error "loading vk failed"
      | .r1cs =>
        if r then .error "contains multiple r1cs files"
        else if f.loadOk then loadFiles fs p v true
        else .error "loading r1cs failed"
      | .other => loadFiles fs p v r

/-- `Server.loadCircuit` on one circuit directory: an `ioutil.ReadDir`
failure on the directory itself is returned as an error (aborting the
walk); otherwise run the file loop, then fail if any of the three objects
is missing; on success derive the witness sizes from the r1cs and register
the circuit under `<curve>/<name>`. -/
def loadCircuit (curveName : String) (d : CircuitDirFS) : Except String (String × circuit) :=
  if !d.readable then .error "cannot read circuit directory"
  else
  match loadFiles d.files false false false with
  | .error e => .error e
  | .ok (p, v, r) =>
    if !p then .error "contains no pk files"
    else if !v then .error "contains no vk files"
    else if !r then .error "contains no r1cs files"
    else .ok (curveName ++ "/" ++ d.name,
      { pk := true, vk := true, r1cs := true,
        publicWitnessSize := 4 + (d.nbPublicVariables - 1) * d.frSize,
        fullWitnessSize := 4 + (d.nbPublicVariables + d.nbSecretVariables - 1) * d.frSize })

/-- The subdirectory loop of `Server.loadCircuits` over one curve directory:
`loadCircuit` on each subdirectory, propagating the first error. -/
def loadCircuitList (curveName : String) :
    List CircuitDirFS → Except String (List (String × circuit))
  | [] => .ok []
  | d :: ds =>
    match loadCircuit curveName d with
    | .error e => .error e
    | .ok c =>
      match loadCircuitList curveName ds with
      | .error e => .error e
      | .ok cs => .ok (c :: cs)

/-- One curve directory in `Server.loadCircuits`: a `ReadDir` failure on the
curve directory is tolerated (`continue`), contributing no circuits. -/
def loadCurveDir (curveName : String) (cd : CurveDirFS) :
    Except String (List (String × circuit)) :=
  if cd.readable then loadCircuitList curveName cd.circuits else .ok []

/-- `Server.loadCircuits`: fail when the root directory is missing, walk the
four supported curve directories, and fail when the resulting catalog is
empty. -/
def loadCircuits (fs : RootFS) : Except String (List (String × circuit)) :=
  if !fs.present then .error "directory doesn't exist"
  else
    match loadCurveDir "bn254" fs.bn254 with
    | .error e => .error e
    | .ok a =>
      match loadCurveDir "bls12_381" fs.bls12_381 with
      | .error e => .error e
      | .ok b =>
        match loadCurveDir "bls12_377" fs.bls12_377 with
        | .error e => .error e
        | .ok c =>
          match loadCurveDir "bw6_761" fs.bw6_761 with
          | .error e => .error e
          | .ok d =>
            if (a ++ b ++ c ++ d).isEmpty then .error "didn't find any circuits"
            else .ok (a ++ b ++ c ++ d)

/-- Whether an `Except`-returning operation succeeded. -/
def exceptOk {α : Type} : Except String α → Bool
  | .ok _ => true
  | .error _ => false

/-- The circuit directories the walk discovers: all subdirectories of the
readable curve directories. -/
def discoveredDirs (fs : RootFS) : List CircuitDirFS :=
  (if fs.bn254.readable then fs.bn254.circuits else []) ++
  (if fs.bls12_381.readable then fs.bls12_381.circuits else []) ++
  (if fs.bls12_377.readable then fs.bls12_377.circuits else []) ++
  (if fs.bw6_761.readable then fs.bw6_761.circuits else [])

/-- Number of regular (non-directory) files with extension `e` in a file list. -/
def cntFiles (fs : List FSFile) (e : FileExt) : Nat :=
  (fs.filter (fun f => !f.isDir && f.ext == e)).length

/-- Number of regular files with extension `e` in the directory. -/
def cntExt (d : CircuitDirFS) (e : FileExt) : Nat :=
  cntFiles d.files e

/-- Written from the claim's words: the directory contains duplicate or
missing `.pk` / `.vk` / `.r1cs` files. -/
def dupOrMissing (d : CircuitDirFS) : Bool :=
  cntExt d .pk != 1 || cntExt d .vk != 1 || cntExt d .r1cs != 1

/-- Written from the claim's words: the failure condition the claim states
for circuit-catalog construction — the root is missing, some discovered
directory has duplicate or missing suffixes, or no circuit is found. -/
def claimedFailure (fs : RootFS) : Bool :=
  !fs.present || (discoveredDirs fs).any dupOrMissing || (discoveredDirs fs).isEmpty

/-- Every `.pk` / `.vk` / `.r1cs` regular file in a file list loads
successfully — the failure source the claim omits. -/
def allLoadFiles (fs : List FSFile) : Bool :=
  fs.all (fun f => f.isDir || f.ext == FileExt.other || f.loadOk)

/-- Every `.pk` / `.vk` / `.r1cs` regular file in the directory loads
successfully. -/
def allLoadable (d : CircuitDirFS) : Bool :=
  allLoadFiles d.files

/-- A directory on which `loadCircuit` succeeds: the directory itself is
listable, it has exactly one file of each of the three extensions, and all
of them load. -/
def goodDir (d : CircuitDirFS) : Bool :=
  d.readable && cntExt d .pk == 1 && cntExt d .vk == 1 && cntExt d .r1cs == 1 &&
    allLoadable d

/-- Every circuit in a successfully built catalog carries all three objects. -/
def catalogComplete : Except String (List (String × circuit)) → Bool
  | .ok l => l.all (fun x => x.2.pk && x.2.vk && x.2.r1cs)
  | .error _ => true

/-- The file loop succeeded and produced all three objects. -/
def okAllThree : Except String (Bool × Bool × Bool) → Bool
  | .ok (p, v, r) => p && v && r
  | .error _ => false

/-! ## Helper lemmas -/

theorem notifyAll_eq (subs : List Sink) :
    notifyAll subs = (subs.map (fun _ => true), subs.any (fun s => s)) := by
  induction subs with
  | nil => rfl
  | cons s rest ih => simp [notifyAll, sendBlocking, ih]

theorem isExpired_eq (now : Nat) (j : ProveJob) :
    isExpired now j =
      if j.expiration < now then
        { job :=
            { j with
              status := Status.ERRORED, err := some JobError.jobExpired,
              subscribers := j.subscribers.map (fun _ => true) },
          expired := true, waited := j.subscribers.any (fun s => s) }
      else { job := j, expired := false, waited := false } := by
  by_cases h : j.expiration < now <;> simp [isExpired, h, notifyAll_eq]

theorem loadFiles_char (fs : List FSFile) (p v r : Bool) :
    okAllThree (loadFiles fs p v r) = true ↔
      (cntFiles fs .pk + (cond p 1 0) = 1 ∧ cntFiles fs .vk + (cond v 1 0) = 1 ∧
       cntFiles fs .r1cs + (cond r 1 0) = 1 ∧ allLoadFiles fs = true) := by
  induction fs generalizing p v r with
  | nil =>
    cases p <;> cases v <;> cases r <;>
      simp [loadFiles, okAllThree, cntFiles, allLoadFiles]
  | cons f fs ih =>
    by_cases hd : f.isDir = true
    · simp [loadFiles, hd, cntFiles, List.filter_cons, allLoadFiles, List.all_cons, ih]
    · have hd' : f.isDir = false := by revert hd; cases f.isDir <;> simp
      cases he : f.ext with
      | pk =>
        cases hp : p
        · cases hl : f.loadOk
          · simp [loadFiles, hd', he, hl, okAllThree, cntFiles, List.filter_cons,
              allLoadFiles, List.all_cons]
          · simp [loadFiles, hd', he, hl, ih, cntFiles, List.filter_cons,
              allLoadFiles, List.all_cons]
        · simp [loadFiles, hd', he, hp, okAllThree, cntFiles, List.filter_cons,
            allLoadFiles, List.all_cons]
      | vk =>
        cases hv : v
        · cases hl : f.loadOk
          · simp [loadFiles, hd', he, hl, okAllThree, cntFiles, List.filter_cons,
              allLoadFiles, List.all_cons]
          · simp [loadFiles, hd', he, hl, ih, cntFiles, List.filter_cons,
              allLoadFiles, List.all_cons]
        · simp [loadFiles, hd', he, hv, okAllThree, cntFiles, List.filter_cons,
            allLoadFiles, List.all_cons]
      | r1cs =>
        cases hr : r
        · cases hl : f.loadOk
          · simp [loadFiles, hd', he, hl, okAllThree, cntFiles, List.filter_cons,
              allLoadFiles, List.all_cons]
          · simp [loadFiles, hd', he, hl, ih, cntFiles, List.filter_cons,
              allLoadFiles, List.all_cons]
        · simp [loadFiles, hd', he, hr, okAllThree, cntFiles, List.filter_cons,
            allLoadFiles, List.all_cons]
      | other =>
        simp [loadFiles, hd', he, ih, cntFiles, List.filter_cons,
          allLoadFiles, List.all_cons]

theorem loadCircuit_okAllThree (n : String) (d : CircuitDirFS)
    (hr : d.readable = true) :
    exceptOk (loadCircuit n d) = okAllThree (loadFiles d.files false false false) := by
  unfold loadCircuit
  rw [hr, if_neg (by simp)]
  cases h : loadFiles d.files false false false with
  | error e => simp [okAllThree, exceptOk]
  | ok t =>
    obtain ⟨p, v, r⟩ := t
    cases p <;> cases v <;> cases r <;> simp [okAllThree, exceptOk]

theorem loadCircuit_good (n : String) (d : CircuitDirFS) :
    exceptOk (loadCircuit n d) = goodDir d := by
  cases hr : d.readable with
  | false => simp [loadCircuit, goodDir, hr, exceptOk]
  | true =>
    rw [loadCircuit_okAllThree n d hr, Bool.eq_iff_iff, loadFiles_char]
    simp [goodDir, cntExt, allLoadable, Bool.and_eq_true, and_assoc, hr]

theorem loadCircuitList_ok (n : String) (ds : List CircuitDirFS) :
    exceptOk (loadCircuitList n ds) = ds.all goodDir := by
  induction ds with
  | nil => rfl
  | cons d ds ih =>
    unfold loadCircuitList
    rw [List.all_cons, ← loadCircuit_good n d, ← ih]
    cases h : loadCircuit n d <;> cases h2 : loadCircuitList n ds <;> simp [exceptOk]

theorem loadCircuitList_length (n : String) (ds : List CircuitDirFS) :
    ∀ l, loadCircuitList n ds = .ok l → l.length = ds.length := by
  induction ds with
  | nil => intro l h; cases h; rfl
  | cons d ds ih =>
    intro l h
    unfold loadCircuitList at h
    cases hc : loadCircuit n d <;> rw [hc] at h
    · cases h
    · cases h2 : loadCircuitList n ds <;> rw [h2] at h
      · cases h
      · cases h
        simp [ih _ h2]

theorem loadCurveDir_ok (n : String) (cd : CurveDirFS) :
    exceptOk (loadCurveDir n cd) = (!cd.readable || cd.circuits.all goodDir) := by
  cases hr : cd.readable with
  | false => simp [loadCurveDir, hr, exceptOk]
  | true =>
    simp only [loadCurveDir, hr, if_true, Bool.not_true, Bool.false_or]
    rw [loadCircuitList_ok]

theorem loadCurveDir_length (n : String) (cd : CurveDirFS) :
    ∀ l, loadCurveDir n cd = .ok l →
      l.length = (if cd.readable then cd.circuits.length else 0) := by
  unfold loadCurveDir
  cases hr : cd.readable <;> intro l h
  · cases h; rfl
  · simp [loadCircuitList_length n cd.circuits l h]

theorem length_ite_list {α : Type} (c : Prop) [Decidable c] (l : List α) :
    (if c then l else []).length = if c then l.length else 0 := by
  by_cases h : c <;> simp [h]

theorem all_ite_list {α : Type} (c : Bool) (l : List α) (g : α → Bool) :
    (if c = true then l else []).all g = (!c || l.all g) := by
  cases c <;> simp

theorem isEmpty_eq_of_length_eq {α β : Type} (x : List α) (y : List β)
    (h : x.length = y.length) : x.isEmpty = y.isEmpty := by
  cases x <;> cases y <;> simp_all

theorem loadCircuit_complete (n : String) (d : CircuitDirFS) :
    ∀ x, loadCircuit n d = .ok x → (x.2.pk && x.2.vk && x.2.r1cs) = true := by
  intro x h
  unfold loadCircuit at h
  cases hr : d.readable <;> rw [hr] at h
  · simp at h
  · rw [if_neg (by simp)] at h
    cases hf : loadFiles d.files false false false with
    | error e => rw [hf] at h; cases h
    | ok t =>
      rw [hf] at h
      obtain ⟨p, v, r⟩ := t
      cases p <;> cases v <;> cases r <;> simp at h
      subst h
      rfl

theorem loadCircuitList_complete (n : String) (ds : List CircuitDirFS) :
    ∀ l, loadCircuitList n ds = .ok l →
      l.all (fun x => x.2.pk && x.2.vk && x.2.r1cs) = true := by
  induction ds with
  | nil => intro l h; cases h; rfl
  | cons d ds ih =>
    intro l h
    unfold loadCircuitList at h
    cases hc : loadCircuit n d <;> rw [hc] at h
    · cases h
    · cases h2 : loadCircuitList n ds <;> rw [h2] at h
      · cases h
      · cases h
        simp [List.all_cons, loadCircuit_complete n d _ hc, ih _ h2]

theorem loadCurveDir_complete (n : String) (cd : CurveDirFS) :
    ∀ l, loadCurveDir n cd = .ok l →
      l.all (fun x => x.2.pk && x.2.vk && x.2.r1cs) = true := by
  unfold loadCurveDir
  cases hr : cd.readable <;> intro l h
  · cases h; rfl
  · exact loadCircuitList_complete n cd.circuits l h

theorem readFull_append (n : Nat) (a b : List Nat) (h : a.length = n) :
    readFull n (a ++ b) = some (a, b) := by
  subst h
  simp [readFull, List.take_left, List.drop_left, List.length_append, Nat.le_add_right]

theorem readFull_short (n : Nat) (a : List Nat) (h : a.length < n) :
    readFull n a = none := by
  simp [readFull, Nat.not_le.mpr h]

theorem readFull_enough (n : Nat) (a : List Nat) (h : n ≤ a.length) :
    readFull n a = some (a.take n, a.drop n) := by
  simp [readFull, h]

/-! ## Claims -/

/-- C10: if `Accept` on the witness TCP listener returns any error, the whole
process is terminated via a fatal log; a single failed accept tears down the
entire server rather than affecting only that connection. -/
theorem claim_C10 (msg : String) :
    listenerStep (AcceptResult.acceptFailed msg) = ListenerOutcome.fatal msg := rfl

/-- C3 counterexample: the claim says a status change never waits on a
subscriber because the send is non-blocking; but the expiry check performs a
plain send on each one-slot sink, so with a full sink it waits. -/
theorem claim_C3_counterexample :
    (isExpired 10
      { id := 3, circuitID := "bn254/cubic", status := Status.RUNNING,
        expiration := 1, subscribers := [true] }).waited = true := by decide

/-- C3 (amended): the expiry-check fan-out is a plain blocking send to each
one-slot sink: when the check fires, it waits exactly when some sink is
already full (the signal is then delivered once the subscriber drains it,
not dropped), and afterwards every sink holds a signal. -/
theorem claim_C3_amended (now : Nat) (job : ProveJob) :
    (isExpired now job).waited =
      (decide (job.expiration < now) && job.subscribers.any (fun s => s)) ∧
    (isExpired now job).job.subscribers =
      (if job.expiration < now then job.subscribers.map (fun _ => true)
       else job.subscribers) := by
  by_cases h : job.expiration < now <;> simp [isExpired, h, notifyAll_eq]

/-- C1 counterexample: the claim says that once a job is terminal its
`status`, `proof` and `err` are never changed again, including by the expiry
check; but `isExpired` on a COMPLETED job past its expiration overwrites
`status` to ERRORED and `err` to expired. -/
theorem claim_C1_counterexample :
    ({ id := 1, circuitID := "bn254/cubic", status := Status.COMPLETED,
       expiration := 5, proof := [1, 2, 3] } : ProveJob).status = Status.COMPLETED ∧
    (isExpired 10
      { id := 1, circuitID := "bn254/cubic", status := Status.COMPLETED,
        expiration := 5, proof := [1, 2, 3] }).job.status = Status.ERRORED ∧
    (isExpired 10
      { id := 1, circuitID := "bn254/cubic", status := Status.COMPLETED,
        expiration := 5, proof := [1, 2, 3] }).job.err = some JobError.jobExpired := by
  decide

/-- C1 (amended): along the `setStatus` path at most one terminal transition
occurs — `setStatus` rejects every transition out of a terminal status — but
the expiry check (used by the GC sweep and by the worker) sets
`status = ERRORED` and `err = expired` on any job past its expiration,
terminal jobs included; it leaves `proof` and `witness` in place. -/
theorem claim_C1_amended (job : ProveJob) (st : Status) (now : Nat) :
    (job.status.isTerminal = true → exceptOk (setStatus job st) = false) ∧
    (job.expiration < now →
      (isExpired now job).job.status = Status.ERRORED ∧
      (isExpired now job).job.err = some JobError.jobExpired ∧
      (isExpired now job).job.proof = job.proof ∧
      (isExpired now job).job.witness = job.witness) := by
  constructor
  · intro h
    cases hs : job.status <;> simp [Status.isTerminal, hs] at h <;>
      cases st <;> simp [setStatus, validTransition, hs, exceptOk]
  · intro h
    simp [isExpired, h, notifyAll_eq]

/-- C1 witness: the amended claim evaluated on a concrete COMPLETED job past
its expiration. -/
theorem claim_C1_amended_witness :
    exceptOk (setStatus
      { id := 1, circuitID := "bn254/cubic", status := Status.COMPLETED,
        expiration := 5, proof := [1, 2] } Status.RUNNING) = false ∧
    (isExpired 10
      { id := 1, circuitID := "bn254/cubic", status := Status.COMPLETED,
        expiration := 5, proof := [1, 2] }).job.status = Status.ERRORED := by
  have h := claim_C1_amended
    { id := 1, circuitID := "bn254/cubic", status := Status.COMPLETED,
      expiration := 5, proof := [1, 2] } Status.RUNNING 10
  exact ⟨h.1 (by decide), (h.2 (by decide)).1⟩

/-- C2 counterexample: the claim says a non-terminal job past expiration is
set to ERRORED and stays in the registry; but the GC sweep deletes every
expired job, non-terminal ones included. -/
theorem claim_C2_counterexample :
    gcSweep 10
      [{ id := 2, circuitID := "bn254/cubic", status := Status.QUEUED,
         expiration := 3, witness := [1] }] = [] ∧
    Status.QUEUED.isTerminal = false := by decide

/-- C2 (amended): on each GC sweep, every job past its expiration — terminal
or not — is set to ERRORED with `err = expired`, its subscribers are
signalled, and it is removed from the registry; jobs not past expiration are
kept unchanged. -/
theorem claim_C2_amended (now : Nat) (jobs : List ProveJob) :
    gcTrace now jobs = jobs.map (fun j =>
      if j.expiration < now then
        { job :=
            { j with
              status := Status.ERRORED, err := some JobError.jobExpired,
              subscribers := j.subscribers.map (fun _ => true) },
          expired := true, waited := j.subscribers.any (fun s => s) }
      else { job := j, expired := false, waited := false }) ∧
    gcSweep now jobs = jobs.filter (fun j => !decide (j.expiration < now)) := by
  have hfun : isExpired now = fun j =>
      if j.expiration < now then
        ({ job :=
             { j with
               status := Status.ERRORED, err := some JobError.jobExpired,
               subscribers := j.subscribers.map (fun _ => true) },
           expired := true, waited := j.subscribers.any (fun s => s) } : ExpiryResult)
      else { job := j, expired := false, waited := false } :=
    funext (isExpired_eq now)
  constructor
  · unfold gcTrace
    rw [hfun]
  · induction jobs with
    | nil => rfl
    | cons j js ih =>
      simp only [gcSweep, gcTrace, List.map_cons, List.filterMap_cons] at ih ⊢
      by_cases h : j.expiration < now <;> simp [isExpired_eq, h, ih]

/-- C5 counterexample: the claim says that when the worker dequeues a jobID
that is not in the registry the process terminates fatally; but the code
logs an error and continues with the next job. -/
theorem claim_C5_counterexample :
    (workerStep [] 0 [] 5 (ProverOutcome.failure "e") (SerializeOutcome.failure "e")).outcome =
      WorkerOutcome.skippedMissingJob := by decide

/-- C5 (amended): an illegal job state transition aborts the process (any
`setStatus` error is a fatal log), but a dequeued jobID absent from the
registry is only logged and skipped — the worker continues. -/
theorem claim_C5_amended (circuits : List (String × circuit)) (now : Nat)
    (registry : List ProveJob) (jid : Nat) (pr : ProverOutcome) (sr : SerializeOutcome)
    (job : ProveJob) (st : Status)
    (h1 : findJob registry jid = none)
    (h2 : validTransition job.status st = false) :
    (workerStep circuits now registry jid pr sr).outcome = WorkerOutcome.skippedMissingJob ∧
    updateJobStatusOrDie job st = DieOr.fatal "illegal status transition" := by
  constructor
  · simp [workerStep, h1]
  · simp [updateJobStatusOrDie, setStatus, h2]

/-- C5 witness: the amended claim evaluated concretely — an empty registry
and a COMPLETED → QUEUED transition attempt. -/
theorem claim_C5_amended_witness :
    (workerStep [] 0 [] 7 (ProverOutcome.failure "e") (SerializeOutcome.failure "e")).outcome =
      WorkerOutcome.skippedMissingJob ∧
    updateJobStatusOrDie
      { id := 9, circuitID := "bn254/cubic", status := Status.COMPLETED, expiration := 5 }
      Status.QUEUED = DieOr.fatal "illegal status transition" := by
  exact claim_C5_amended [] 0 [] 7 (ProverOutcome.failure "e") (SerializeOutcome.failure "e")
    { id := 9, circuitID := "bn254/cubic", status := Status.COMPLETED, expiration := 5 }
    Status.QUEUED (by decide) (by decide)

/-- C4 counterexample: the claim says the witness buffer is cleared by the
time the job is RUNNING and before the prover is invoked; but the worker
transitions to RUNNING first and invokes the prover with the witness still
stored — at the prover call, status is RUNNING and the witness is non-empty. -/
theorem claim_C4_counterexample :
    (workerStep
      [("bn254/cubic", { pk := true, vk := true, r1cs := true,
                         publicWitnessSize := 4, fullWitnessSize := 3 })]
      5
      [{ id := 4, circuitID := "bn254/cubic", status := Status.QUEUED,
         expiration := 100, witness := [7, 8, 9] }]
      4 (ProverOutcome.success [1]) (SerializeOutcome.success [2])).atProverCall =
    some { id := 4, circuitID := "bn254/cubic", status := Status.RUNNING,
           expiration := 100, witness := [7, 8, 9] } := by decide

/-- C4 (amended): the witness stays stored across the QUEUED → RUNNING
transition; the worker invokes the prover with the witness still set while
the job is RUNNING, and clears it immediately after `ReadAndProve` returns,
so the job's final state after the worker iteration has an empty witness. -/
theorem claim_C4_amended (circuits : List (String × circuit)) (now : Nat)
    (registry : List ProveJob) (jid : Nat) (job : ProveJob) (c : circuit)
    (pr : ProverOutcome) (sr : SerializeOutcome)
    (h1 : findJob registry jid = some job)
    (h2 : job.status = Status.QUEUED)
    (h3 : ¬ job.expiration < now)
    (h4 : lookupCircuit circuits job.circuitID = some c) :
    (workerStep circuits now registry jid pr sr).atProverCall =
      some { job with
             status := Status.RUNNING,
             subscribers := job.subscribers.map (fun _ => true) } ∧
    ((workerStep circuits now registry jid pr sr).atProverCall.map (fun j => j.witness)) =
      some job.witness ∧
    ((workerStep circuits now registry jid pr sr).finalJob.map (fun j => j.witness)) =
      some [] := by
  have he : isExpired now job = { job := job, expired := false, waited := false } := by
    simp [isExpired, h3]
  cases pr <;> cases sr <;>
    simp [workerStep, h1, he, updateJobStatusOrDie, setStatus, h2, h4, validTransition]

/-- C4 witness: the amended claim evaluated on a concrete QUEUED job with a
three-byte witness. -/
theorem claim_C4_amended_witness :
    (workerStep
      [("bn254/cubic", { pk := true, vk := true, r1cs := true,
                         publicWitnessSize := 4, fullWitnessSize := 3 })]
      5
      [{ id := 4, circuitID := "bn254/cubic", status := Status.QUEUED,
         expiration := 100, witness := [7, 8, 9] }]
      4 (ProverOutcome.failure "boom") (SerializeOutcome.success [2])).atProverCall =
      some { id := 4, circuitID := "bn254/cubic", status := Status.RUNNING,
             expiration := 100, witness := [7, 8, 9] } ∧
    ((workerStep
      [("bn254/cubic", { pk := true, vk := true, r1cs := true,
                         publicWitnessSize := 4, fullWitnessSize := 3 })]
      5
      [{ id := 4, circuitID := "bn254/cubic", status := Status.QUEUED,
         expiration := 100, witness := [7, 8, 9] }]
      4 (ProverOutcome.failure "boom") (SerializeOutcome.success [2])).atProverCall.map
        (fun j => j.witness)) = some [7, 8, 9] ∧
    ((workerStep
      [("bn254/cubic", { pk := true, vk := true, r1cs := true,
                         publicWitnessSize := 4, fullWitnessSize := 3 })]
      5
      [{ id := 4, circuitID := "bn254/cubic", status := Status.QUEUED,
         expiration := 100, witness := [7, 8, 9] }]
      4 (ProverOutcome.failure "boom") (SerializeOutcome.success [2])).finalJob.map
        (fun j => j.witness)) = some [] :=
  claim_C4_amended
    [("bn254/cubic", { pk := true, vk := true, r1cs := true,
                       publicWitnessSize := 4, fullWitnessSize := 3 })]
    5
    [{ id := 4, circuitID := "bn254/cubic", status := Status.QUEUED,
       expiration := 100, witness := [7, 8, 9] }]
    4
    { id := 4, circuitID := "bn254/cubic", status := Status.QUEUED,
      expiration := 100, witness := [7, 8, 9] }
    { pk := true, vk := true, r1cs := true, publicWitnessSize := 4, fullWitnessSize := 3 }
    (ProverOutcome.failure "boom") (SerializeOutcome.success [2])
    (by decide) (by decide) (by decide) (by decide)

/-- C9: if the prover succeeds but serializing the proof fails, the worker
stores the serialization error in `job.err`, transitions RUNNING → ERRORED,
and `job.proof` stays empty; the job does not reach COMPLETED. -/
theorem claim_C9 (circuits : List (String × circuit)) (now : Nat)
    (registry : List ProveJob) (jid : Nat) (job : ProveJob) (c : circuit)
    (pobj : List Nat) (msg : String)
    (h1 : findJob registry jid = some job)
    (h2 : job.status = Status.QUEUED)
    (h3 : ¬ job.expiration < now)
    (h4 : lookupCircuit circuits job.circuitID = some c)
    (h5 : job.proof = []) :
    (workerStep circuits now registry jid (ProverOutcome.success pobj)
      (SerializeOutcome.failure msg)).outcome = WorkerOutcome.finishedJob ∧
    (workerStep circuits now registry jid (ProverOutcome.success pobj)
      (SerializeOutcome.failure msg)).finalJob =
      some { job with
             status := Status.ERRORED, witness := [],
             err := some (JobError.serializeFailed msg),
             subscribers := job.subscribers.map (fun _ => true) } ∧
    ((workerStep circuits now registry jid (ProverOutcome.success pobj)
      (SerializeOutcome.failure msg)).finalJob.map (fun j => j.proof)) = some [] := by
  have he : isExpired now job = { job := job, expired := false, waited := false } := by
    simp [isExpired, h3]
  simp [workerStep, h1, he, updateJobStatusOrDie, setStatus, h2, h4, h5, validTransition,
    List.map_map, Function.comp]

/-- C9 witness: the serialization-failure path evaluated on a concrete job. -/
theorem claim_C9_witness :
    (workerStep
      [("bn254/cubic", { pk := true, vk := true, r1cs := true,
                         publicWitnessSize := 4, fullWitnessSize := 3 })]
      5
      [{ id := 4, circuitID := "bn254/cubic", status := Status.QUEUED,
         expiration := 100, witness := [7, 8, 9] }]
      4 (ProverOutcome.success [1]) (SerializeOutcome.failure "bad proof")).outcome =
      WorkerOutcome.finishedJob ∧
    (workerStep
      [("bn254/cubic", { pk := true, vk := true, r1cs := true,
                         publicWitnessSize := 4, fullWitnessSize := 3 })]
      5
      [{ id := 4, circuitID := "bn254/cubic", status := Status.QUEUED,
         expiration := 100, witness := [7, 8, 9] }]
      4 (ProverOutcome.success [1]) (SerializeOutcome.failure "bad proof")).finalJob =
      some { id := 4, circuitID := "bn254/cubic", status := Status.ERRORED,
             expiration := 100, err := some (JobError.serializeFailed "bad proof") } ∧
    ((workerStep
      [("bn254/cubic", { pk := true, vk := true, r1cs := true,
                         publicWitnessSize := 4, fullWitnessSize := 3 })]
      5
      [{ id := 4, circuitID := "bn254/cubic", status := Status.QUEUED,
         expiration := 100, witness := [7, 8, 9] }]
      4 (ProverOutcome.success [1]) (SerializeOutcome.failure "bad proof")).finalJob.map
        (fun j => j.proof)) = some [] :=
  claim_C9
    [("bn254/cubic", { pk := true, vk := true, r1cs := true,
                       publicWitnessSize := 4, fullWitnessSize := 3 })]
    5
    [{ id := 4, circuitID := "bn254/cubic", status := Status.QUEUED,
       expiration := 100, witness := [7, 8, 9] }]
    4
    { id := 4, circuitID := "bn254/cubic", status := Status.QUEUED,
      expiration := 100, witness := [7, 8, 9] }
    { pk := true, vk := true, r1cs := true, publicWitnessSize := 4, fullWitnessSize := 3 }
    [1] "bad proof"
    (by decide) (by decide) (by decide) (by decide) (by decide)

/-- C6: a witness-ingest exchange that fails while reading the witness
payload (short read) leaves the job unchanged — still WAITING_WITNESS with
an empty witness buffer — replies "nok", and a later retry with a
correct-length payload succeeds and moves the job to QUEUED. -/
theorem claim_C6 (circuits : List (String × circuit)) (registry : List ProveJob)
    (idBytes payload payload2 : List Nat) (job : ProveJob) (c : circuit)
    (hlen : idBytes.length = jobIDSize)
    (hfind : findJob registry (decodeJobID idBytes) = some job)
    (hstatus : job.status = Status.WAITING_WITNESS)
    (hwit : job.witness = [])
    (hc : lookupCircuit circuits job.circuitID = some c)
    (hshort : payload.length < c.fullWitnessSize)
    (hfull : c.fullWitnessSize ≤ payload2.length) :
    (receiveWitness circuits registry (idBytes ++ payload)).outcome =
      IngestOutcome.replied "nok" ∧
    (receiveWitness circuits registry (idBytes ++ payload)).registry = registry ∧
    (receiveWitness circuits registry (idBytes ++ payload)).finalJob = some job ∧
    job.status = Status.WAITING_WITNESS ∧ job.witness = [] ∧
    (receiveWitness circuits (receiveWitness circuits registry (idBytes ++ payload)).registry
      (idBytes ++ payload2)).outcome = IngestOutcome.replied "ok" ∧
    ((receiveWitness circuits (receiveWitness circuits registry (idBytes ++ payload)).registry
      (idBytes ++ payload2)).finalJob.map (fun j => j.status)) = some Status.QUEUED := by
  have h1 := readFull_append jobIDSize idBytes payload hlen
  have h2 := readFull_append jobIDSize idBytes payload2 hlen
  have h3 := readFull_short c.fullWitnessSize payload hshort
  have h4 := readFull_enough c.fullWitnessSize payload2 hfull
  have hrun1 : receiveWitness circuits registry (idBytes ++ payload) =
      { registry := registry,
        events := [Event.readJobID idBytes, Event.lock, Event.unlock, Event.reply "nok"],
        finalJob := some job, outcome := IngestOutcome.replied "nok" } := by
    simp [receiveWitness, h1, hfind, hstatus, hc, h3]
  refine ⟨by rw [hrun1], by rw [hrun1], by rw [hrun1], hstatus, hwit, ?_, ?_⟩ <;>
    rw [hrun1] <;>
    simp [receiveWitness, h2, hfind, hstatus, hc, h4, updateJobStatusOrDie, setStatus,
      validTransition]

/-- C6 witness: a short then a correct-length witness upload for a concrete
WAITING_WITNESS job. -/
theorem claim_C6_witness :
    (receiveWitness
      [("bn254/cubic", { pk := true, vk := true, r1cs := true,
                         publicWitnessSize := 4, fullWitnessSize := 2 })]
      [{ id := 0, circuitID := "bn254/cubic", status := Status.WAITING_WITNESS,
         expiration := 100 }]
      (List.replicate 16 0 ++ [1])).outcome = IngestOutcome.replied "nok" ∧
    (receiveWitness
      [("bn254/cubic", { pk := true, vk := true, r1cs := true,
                         publicWitnessSize := 4, fullWitnessSize := 2 })]
      [{ id := 0, circuitID := "bn254/cubic", status := Status.WAITING_WITNESS,
         expiration := 100 }]
      (List.replicate 16 0 ++ [1])).registry =
      [{ id := 0, circuitID := "bn254/cubic", status := Status.WAITING_WITNESS,
         expiration := 100 }] ∧
    (receiveWitness
      [("bn254/cubic", { pk := true, vk := true, r1cs := true,
                         publicWitnessSize := 4, fullWitnessSize := 2 })]
      [{ id := 0, circuitID := "bn254/cubic", status := Status.WAITING_WITNESS,
         expiration := 100 }]
      (List.replicate 16 0 ++ [1])).finalJob =
      some { id := 0, circuitID := "bn254/cubic", status := Status.WAITING_WITNESS,
             expiration := 100 } ∧
    ({ id := 0, circuitID := "bn254/cubic", status := Status.WAITING_WITNESS,
       expiration := 100 } : ProveJob).status = Status.WAITING_WITNESS ∧
    ({ id := 0, circuitID := "bn254/cubic", status := Status.WAITING_WITNESS,
       expiration := 100 } : ProveJob).witness = [] ∧
    (receiveWitness
      [("bn254/cubic", { pk := true, vk := true, r1cs := true,
                         publicWitnessSize := 4, fullWitnessSize := 2 })]
      (receiveWitness
        [("bn254/cubic", { pk := true, vk := true, r1cs := true,
                           publicWitnessSize := 4, fullWitnessSize := 2 })]
        [{ id := 0, circuitID := "bn254/cubic", status := Status.WAITING_WITNESS,
           expiration := 100 }]
        (List.replicate 16 0 ++ [1])).registry
      (List.replicate 16 0 ++ [1, 2])).outcome = IngestOutcome.replied "ok" ∧
    ((receiveWitness
      [("bn254/cubic", { pk := true, vk := true, r1cs := true,
                         publicWitnessSize := 4, fullWitnessSize := 2 })]
      (receiveWitness
        [("bn254/cubic", { pk := true, vk := true, r1cs := true,
                           publicWitnessSize := 4, fullWitnessSize := 2 })]
        [{ id := 0, circuitID := "bn254/cubic", status := Status.WAITING_WITNESS,
           expiration := 100 }]
        (List.replicate 16 0 ++ [1])).registry
      (List.replicate 16 0 ++ [1, 2])).finalJob.map (fun j => j.status)) =
      some Status.QUEUED :=
  claim_C6
    [("bn254/cubic", { pk := true, vk := true, r1cs := true,
                       publicWitnessSize := 4, fullWitnessSize := 2 })]
    [{ id := 0, circuitID := "bn254/cubic", status := Status.WAITING_WITNESS,
       expiration := 100 }]
    (List.replicate 16 0) [1] [1, 2]
    { id := 0, circuitID := "bn254/cubic", status := Status.WAITING_WITNESS,
      expiration := 100 }
    { pk := true, vk := true, r1cs := true, publicWitnessSize := 4, fullWitnessSize := 2 }
    (by decide) (by decide) (by decide) (by decide) (by decide) (by decide) (by decide)

/-- C7: a successful witness-ingest exchange reads exactly
`circuit.fullWitnessSize` bytes into a fresh buffer and then, in this order,
stores the buffer in `job.witness`, releases the job lock, transitions the
job to QUEUED, publishes the jobID on the ready-queue, and replies "ok". -/
theorem claim_C7 (circuits : List (String × circuit)) (registry : List ProveJob)
    (idBytes payload : List Nat) (job : ProveJob) (c : circuit)
    (hlen : idBytes.length = jobIDSize)
    (hfind : findJob registry (decodeJobID idBytes) = some job)
    (hstatus : job.status = Status.WAITING_WITNESS)
    (hc : lookupCircuit circuits job.circuitID = some c)
    (hsize : c.fullWitnessSize ≤ payload.length) :
    (payload.take c.fullWitnessSize).length = c.fullWitnessSize ∧
    (receiveWitness circuits registry (idBytes ++ payload)).events =
      [Event.readJobID idBytes, Event.lock,
       Event.storeWitness (payload.take c.fullWitnessSize), Event.unlock,
       Event.setStatusQueued, Event.enqueue (decodeJobID idBytes), Event.reply "ok"] ∧
    (receiveWitness circuits registry (idBytes ++ payload)).outcome =
      IngestOutcome.replied "ok" ∧
    (receiveWitness circuits registry (idBytes ++ payload)).finalJob =
      some { job with
             witness := payload.take c.fullWitnessSize, status := Status.QUEUED,
             subscribers := job.subscribers.map (fun _ => true) } := by
  have h1 := readFull_append jobIDSize idBytes payload hlen
  have h4 := readFull_enough c.fullWitnessSize payload hsize
  refine ⟨by simp [List.length_take, Nat.min_eq_left hsize], ?_, ?_, ?_⟩ <;>
    simp [receiveWitness, h1, hfind, hstatus, hc, h4, updateJobStatusOrDie, setStatus,
      validTransition]

/-- C7 witness: a successful upload of a two-byte witness (plus one ignored
trailing byte) for a concrete WAITING_WITNESS job. -/
theorem claim_C7_witness :
    (([5, 6, 7] : List Nat).take 2).length = 2 ∧
    (receiveWitness
      [("bn254/cubic", { pk := true, vk := true, r1cs := true,
                         publicWitnessSize := 4, fullWitnessSize := 2 })]
      [{ id := 0, circuitID := "bn254/cubic", status := Status.WAITING_WITNESS,
         expiration := 100 }]
      (List.replicate 16 0 ++ [5, 6, 7])).events =
      [Event.readJobID (List.replicate 16 0), Event.lock,
       Event.storeWitness (([5, 6, 7] : List Nat).take 2), Event.unlock,
       Event.setStatusQueued, Event.enqueue (decodeJobID (List.replicate 16 0)),
       Event.reply "ok"] ∧
    (receiveWitness
      [("bn254/cubic", { pk := true, vk := true, r1cs := true,
                         publicWitnessSize := 4, fullWitnessSize := 2 })]
      [{ id := 0, circuitID := "bn254/cubic", status := Status.WAITING_WITNESS,
         expiration := 100 }]
      (List.replicate 16 0 ++ [5, 6, 7])).outcome = IngestOutcome.replied "ok" ∧
    (receiveWitness
      [("bn254/cubic", { pk := true, vk := true, r1cs := true,
                         publicWitnessSize := 4, fullWitnessSize := 2 })]
      [{ id := 0, circuitID := "bn254/cubic", status := Status.WAITING_WITNESS,
         expiration := 100 }]
      (List.replicate 16 0 ++ [5, 6, 7])).finalJob =
      some { ({ id := 0, circuitID := "bn254/cubic", status := Status.WAITING_WITNESS,
                expiration := 100 } : ProveJob) with
             witness := ([5, 6, 7] : List Nat).take 2, status := Status.QUEUED,
             subscribers := ([] : List Sink).map (fun _ => true) } :=
  claim_C7
    [("bn254/cubic", { pk := true, vk := true, r1cs := true,
                       publicWitnessSize := 4, fullWitnessSize := 2 })]
    [{ id := 0, circuitID := "bn254/cubic", status := Status.WAITING_WITNESS,
       expiration := 100 }]
    (List.replicate 16 0) [5, 6, 7]
    { id := 0, circuitID := "bn254/cubic", status := Status.WAITING_WITNESS,
      expiration := 100 }
    { pk := true, vk := true, r1cs := true, publicWitnessSize := 4, fullWitnessSize := 2 }
    (by decide) (by decide) (by decide) (by decide) (by decide)

/-- C8 counterexample: the claim says catalog construction fails exactly
when the root is missing, a discovered directory has duplicate or missing
suffixes, or no circuit is found; but a directory with exactly one file of
each suffix whose `.pk` file fails to deserialize also fails construction,
while none of the claimed conditions holds. -/
theorem claim_C8_counterexample :
    exceptOk (loadCircuits
      { present := true,
        bn254 :=
          { readable := true,
            circuits :=
              [{ name := "cubic",
                 files :=
                   [{ name := "cubic.pk", ext := FileExt.pk, loadOk := false },
                    { name := "cubic.vk", ext := FileExt.vk },
                    { name := "cubic.r1cs", ext := FileExt.r1cs }] }] } }) = false ∧
    claimedFailure
      { present := true,
        bn254 :=
          { readable := true,
            circuits :=
              [{ name := "cubic",
                 files :=
                   [{ name := "cubic.pk", ext := FileExt.pk, loadOk := false },
                    { name := "cubic.vk", ext := FileExt.vk },
                    { name := "cubic.r1cs", ext := FileExt.r1cs }] }] } } = false := by
  decide

theorem loadCircuits_present_false (fs : RootFS) (hp : fs.present = false) :
    loadCircuits fs = .error "directory doesn't exist" := by
  unfold loadCircuits
  rw [hp]
  simp

theorem loadCircuits_err1 (fs : RootFS) (hp : fs.present = true) (e : String)
    (h1 : loadCurveDir "bn254" fs.bn254 = .error e) : loadCircuits fs = .error e := by
  unfold loadCircuits
  rw [hp, h1]
  simp

theorem loadCircuits_err2 (fs : RootFS) (hp : fs.present = true)
    (a : List (String × circuit)) (e : String)
    (h1 : loadCurveDir "bn254" fs.bn254 = .ok a)
    (h2 : loadCurveDir "bls12_381" fs.bls12_381 = .error e) :
    loadCircuits fs = .error e := by
  unfold loadCircuits
  rw [hp, h1, h2]
  simp

theorem loadCircuits_err3 (fs : RootFS) (hp : fs.present = true)
    (a b : List (String × circuit)) (e : String)
    (h1 : loadCurveDir "bn254" fs.bn254 = .ok a)
    (h2 : loadCurveDir "bls12_381" fs.bls12_381 = .ok b)
    (h3 : loadCurveDir "bls12_377" fs.bls12_377 = .error e) :
    loadCircuits fs = .error e := by
  unfold loadCircuits
  rw [hp, h1, h2, h3]
  simp

theorem loadCircuits_err4 (fs : RootFS) (hp : fs.present = true)
    (a b c : List (String × circuit)) (e : String)
    (h1 : loadCurveDir "bn254" fs.bn254 = .ok a)
    (h2 : loadCurveDir "bls12_381" fs.bls12_381 = .ok b)
    (h3 : loadCurveDir "bls12_377" fs.bls12_377 = .ok c)
    (h4 : loadCurveDir "bw6_761" fs.bw6_761 = .error e) :
    loadCircuits fs = .error e := by
  unfold loadCircuits
  rw [hp, h1, h2, h3, h4]
  simp

theorem loadCircuits_pipeline (fs : RootFS) (hp : fs.present = true)
    (a b c d : List (String × circuit))
    (h1 : loadCurveDir "bn254" fs.bn254 = .ok a)
    (h2 : loadCurveDir "bls12_381" fs.bls12_381 = .ok b)
    (h3 : loadCurveDir "bls12_377" fs.bls12_377 = .ok c)
    (h4 : loadCurveDir "bw6_761" fs.bw6_761 = .ok d) :
    loadCircuits fs =
      (if (a ++ b ++ c ++ d).isEmpty then Except.error "didn't find any circuits"
       else Except.ok (a ++ b ++ c ++ d)) := by
  unfold loadCircuits
  rw [hp, h1, h2, h3, h4]
  simp

/-- C8 (amended): catalog construction succeeds exactly when the root is
present, every discovered circuit directory is itself listable and has
exactly one file of each of the three suffixes all of which load
successfully, and at least one circuit directory is discovered; and every
circuit of a successfully built catalog carries all three objects. -/
theorem claim_C8_amended (fs : RootFS) :
    exceptOk (loadCircuits fs) =
      (fs.present && (discoveredDirs fs).all goodDir && !(discoveredDirs fs).isEmpty) ∧
    catalogComplete (loadCircuits fs) = true := by
  constructor
  · cases hp : fs.present with
    | false => simp [loadCircuits_present_false fs hp, exceptOk]
    | true =>
      have q1 := loadCurveDir_ok "bn254" fs.bn254
      have q2 := loadCurveDir_ok "bls12_381" fs.bls12_381
      have q3 := loadCurveDir_ok "bls12_377" fs.bls12_377
      have q4 := loadCurveDir_ok "bw6_761" fs.bw6_761
      cases h1 : loadCurveDir "bn254" fs.bn254 with
      | error e1 =>
        rw [h1] at q1
        have hAll : (discoveredDirs fs).all goodDir = false := by
          simp [discoveredDirs, List.all_append, all_ite_list, ← q1, exceptOk]
        simp [loadCircuits_err1 fs hp e1 h1, exceptOk, hAll]
      | ok a =>
        rw [h1] at q1
        cases h2 : loadCurveDir "bls12_381" fs.bls12_381 with
        | error e2 =>
          rw [h2] at q2
          have hAll : (discoveredDirs fs).all goodDir = false := by
            simp [discoveredDirs, List.all_append, all_ite_list, ← q1, ← q2, exceptOk]
          simp [loadCircuits_err2 fs hp a e2 h1 h2, exceptOk, hAll]
        | ok b =>
          rw [h2] at q2
          cases h3 : loadCurveDir "bls12_377" fs.bls12_377 with
          | error e3 =>
            rw [h3] at q3
            have hAll : (discoveredDirs fs).all goodDir = false := by
              simp [discoveredDirs, List.all_append, all_ite_list, ← q1, ← q2, ← q3,
                exceptOk]
            simp [loadCircuits_err3 fs hp a b e3 h1 h2 h3, exceptOk, hAll]
          | ok c =>
            rw [h3] at q3
            cases h4 : loadCurveDir "bw6_761" fs.bw6_761 with
            | error e4 =>
              rw [h4] at q4
              have hAll : (discoveredDirs fs).all goodDir = false := by
                simp [discoveredDirs, List.all_append, all_ite_list, ← q1, ← q2, ← q3,
                  ← q4, exceptOk]
              simp [loadCircuits_err4 fs hp a b c e4 h1 h2 h3 h4, exceptOk, hAll]
            | ok d =>
              rw [h4] at q4
              have hAll : (discoveredDirs fs).all goodDir = true := by
                simp [discoveredDirs, List.all_append, all_ite_list, ← q1, ← q2, ← q3,
                  ← q4, exceptOk]
              have la := loadCurveDir_length "bn254" fs.bn254 a h1
              have lb := loadCurveDir_length "bls12_381" fs.bls12_381 b h2
              have lc := loadCurveDir_length "bls12_377" fs.bls12_377 c h3
              have ld := loadCurveDir_length "bw6_761" fs.bw6_761 d h4
              have hlen : (a ++ b ++ c ++ d).length = (discoveredDirs fs).length := by
                simp [discoveredDirs, List.length_append, la, lb, lc, ld, length_ite_list]
              have hE := isEmpty_eq_of_length_eq (a ++ b ++ c ++ d) (discoveredDirs fs) hlen
              rw [loadCircuits_pipeline fs hp a b c d h1 h2 h3 h4]
              cases hE2 : (a ++ b ++ c ++ d).isEmpty with
              | true =>
                rw [hE2] at hE
                rw [if_pos rfl]
                simp [exceptOk, ← hE]
              | false =>
                rw [hE2] at hE
                rw [if_neg (by simp)]
                simp [exceptOk, hAll, ← hE]
  · cases hp : fs.present with
    | false => simp [loadCircuits_present_false fs hp, catalogComplete]
    | true =>
      cases h1 : loadCurveDir "bn254" fs.bn254 with
      | error e1 => simp [loadCircuits_err1 fs hp e1 h1, catalogComplete]
      | ok a =>
        cases h2 : loadCurveDir "bls12_381" fs.bls12_381 with
        | error e2 => simp [loadCircuits_err2 fs hp a e2 h1 h2, catalogComplete]
        | ok b =>
          cases h3 : loadCurveDir "bls12_377" fs.bls12_377 with
          | error e3 => simp [loadCircuits_err3 fs hp a b e3 h1 h2 h3, catalogComplete]
          | ok c =>
            cases h4 : loadCurveDir "bw6_761" fs.bw6_761 with
            | error e4 => simp [loadCircuits_err4 fs hp a b c e4 h1 h2 h3 h4, catalogComplete]
            | ok d =>
              rw [loadCircuits_pipeline fs hp a b c d h1 h2 h3 h4]
              cases hE2 : (a ++ b ++ c ++ d).isEmpty with
              | true => rw [if_pos rfl]; simp [catalogComplete]
              | false =>
                rw [if_neg (by simp)]
                simp [catalogComplete, List.all_append,
                  loadCurveDir_complete _ _ _ h1, loadCurveDir_complete _ _ _ h2,
                  loadCurveDir_complete _ _ _ h3, loadCurveDir_complete _ _ _ h4]

end GnarkdServer
